import Mathlib

/-!
Shallow embedding of `espnet2/bin/svs_inference.py` (singing-voice-synthesis
inference): the `SingingGenerate` orchestrator (construction-time decode
configuration, conditioning precondition checks, batch assembly, attention
branch, vocoder post-processing with multi-layer reshaping) and the
`inference` batch runner (fail-fast checks, the per-utterance streaming
loop, per-channel write bookkeeping, and the end-of-run directory pruning).

Tensors are modelled as a row-major flat data list together with a shape,
mirroring `torch.Tensor.view` / `transpose` semantics exactly where the
source reshapes.  External collaborators (the acoustic model, the vocoder,
the preprocessing function, the duration calculator) are function-valued
fields of the orchestrator, as in the spec's collaborator contracts.
-/

/-- A torch tensor: shape plus row-major flat data.  Element values are
integers (the numeric payload is never interpreted by this layer). -/
structure Tensor where
  shape : List Nat
  data : List Int
deriving DecidableEq, Repr

/-- Torch `t.view(-1, cols)`: reinterpret the flat data as a
`[numel / cols, cols]` matrix; errors when `cols` does not divide the
number of elements (torch raises a shape error). -/
def torchViewCols (cols : Nat) (t : Tensor) : Except String Tensor :=
  if cols ≠ 0 ∧ t.data.length % cols = 0 then
    .ok ⟨[t.data.length / cols, cols], t.data⟩
  else
    .error "RuntimeError: shape is invalid for input size"

/-- Torch `t.view(rows, -1)`: reinterpret the flat data as a
`[rows, numel / rows]` matrix. -/
def torchViewRows (rows : Nat) (t : Tensor) : Except String Tensor :=
  if rows ≠ 0 ∧ t.data.length % rows = 0 then
    .ok ⟨[rows, t.data.length / rows], t.data⟩
  else
    .error "RuntimeError: shape is invalid for input size"

/-- Row-major data of the transpose of an `[a, b]` matrix: output index
`n` (row-major in `[b, a]`) reads input element `(n % a) * b + n / a`. -/
def transposeData (a b : Nat) (d : List Int) : List Int :=
  (List.range (b * a)).map (fun n => d.getD ((n % a) * b + n / a) 0)

/-- Torch `t.transpose(0, 1)` materialized row-major; the source only
applies it to the 2-D result of `view(layers, -1)`. -/
def transpose01 (t : Tensor) : Except String Tensor :=
  match t.shape with
  | [a, b] => .ok ⟨[b, a], transposeData a b t.data⟩
  | _ => .error "RuntimeError: transpose needs a 2-D tensor here"

/-- Column `i` of a 2-D tensor (`t[:, i]`); errors on other ranks as torch
does (`too many indices` on a 1-D tensor). -/
def tensorCol (t : Tensor) (i : Nat) : Except String Tensor :=
  match t.shape with
  | [r, c] =>
    if i < c then
      .ok ⟨[r], (List.range r).map (fun j => t.data.getD (j * c + i) 0)⟩
    else
      .error "IndexError: index out of bounds"
  | _ => .error "IndexError: too many indices for tensor"

/-- Torch `t.unsqueeze(1)`: insert a singleton dimension at position 1. -/
def unsqueeze1 (t : Tensor) : Tensor :=
  match t.shape with
  | d0 :: rest => ⟨d0 :: 1 :: rest, t.data⟩
  | [] => ⟨[1], t.data⟩

/-- Python slicing `t[::k]` on the first dimension: keep rows whose index
is a multiple of `k`. -/
def rowStride (k : Nat) (t : Tensor) : Tensor :=
  match t.shape with
  | r :: rest =>
    let rowLen := rest.prod
    let kept := (List.range r).filter (fun i => i % k = 0)
    ⟨kept.length :: rest, kept.flatMap (fun i => (t.data.drop (i * rowLen)).take rowLen)⟩
  | [] => t

/-- A decode-configuration value (bool flag, rational scalar standing in
for a python float, or integer window size). -/
inductive ConfVal where
  | b : Bool → ConfVal
  | q : Rat → ConfVal
  | i : Int → ConfVal
deriving DecidableEq, Repr

/-- Python `dict.update`: existing keys keep their position and take the
new value; keys absent from the base are appended in the update's order. -/
def dictUpdate (base upd : List (String × ConfVal)) : List (String × ConfVal) :=
  base.map (fun p =>
    match upd.lookup p.1 with
    | some v => (p.1, v)
    | none => p)
  ++ upd.filter (fun q => (base.lookup q.1).isNone)

/-- Runtime variant of the loaded acoustic model, per the spec's design
note: `isinstance(self.svs, VITS)` / `isinstance(self.svs, singing_tacotron)`
become a tagged sum; neither tagged class means the default path. -/
inductive SvsVariant where
  | vits
  | singing_tacotron
  | other
deriving DecidableEq, Repr

/-- Construction-time decode flags of `SingingGenerate.__init__` (only the
ones feeding `decode_conf`).  The Lean fields `maxlenr` / `minlenr` stand
for the source arguments `maxlenratio` / `minlenratio`; the dictionary
keys keep the exact source spelling. -/
structure InitFlags where
  threshold : Rat := 1/2
  minlenr : Rat := 0
  maxlenr : Rat := 10
  use_teacher_forcing : Bool := false
  use_att_constraint : Bool := false
  use_dynamic_filter : Bool := false
  backward_window : Int := 2
  forward_window : Int := 4
  noise_scale : Rat := 667/1000
  noise_scale_dur : Rat := 8/10

/-- Decode-configuration construction of `SingingGenerate.__init__`
(source lines 165-183): start from the universal flag, then extend by the
variant-specific subsets via `dict.update`. -/
def buildDecodeConf (variant : SvsVariant) (f : InitFlags) : List (String × ConfVal) :=
  let dc : List (String × ConfVal) := []
  let dc := dictUpdate dc [("use_teacher_forcing", ConfVal.b f.use_teacher_forcing)]
  let dc :=
    if variant = SvsVariant.vits then
      dictUpdate dc
        [("noise_scale", ConfVal.q f.noise_scale),
         ("noise_scale_dur", ConfVal.q f.noise_scale_dur)]
    else dc
  let dc :=
    if variant = SvsVariant.singing_tacotron then
      dictUpdate dc
        [("threshold", ConfVal.q f.threshold),
         ("maxlenratio", ConfVal.q f.maxlenr),
         ("minlenratio", ConfVal.q f.minlenr),
         ("use_att_constraint", ConfVal.b f.use_att_constraint),
         ("use_dynamic_filter", ConfVal.b f.use_dynamic_filter),
         ("forward_window", ConfVal.i f.forward_window),
         ("backward_window", ConfVal.i f.backward_window)]
    else dc
  dc

/-- Output mapping of one acoustic-model inference call, with the optional
keys consumed by this layer (`output_dict`); `duration` / `focus_rate` are
filled in by the orchestrator itself. -/
structure ModelOutput where
  feat_gen : Option Tensor := none
  feat_gen_denorm : Option Tensor := none
  att_w : Option Tensor := none
  prob : Option Tensor := none
  pitch : Option Tensor := none
  wav : Option Tensor := none
  duration : Option Tensor := none
  focus_rate : Option Rat := none
deriving DecidableEq, Repr

/-- Result of the external preprocessing collaborator
(`preprocess_fn("<dummy>", infer_data)`): the aligned tensors it returns. -/
structure PreprocOut where
  label : Tensor
  midi : Tensor
  duration_phn : Tensor
  duration_ruled_phn : Tensor
  duration_syb : Tensor
  phn_cnt : Tensor
  slur : Tensor

/-- The structured `text` argument's payload when a music-score record is
passed: it must carry either a phoneme-label alignment or free text (the
source indexes `text["label"]` / `text["text"]`). -/
inductive LabelOrText where
  | lbl : List Int → LabelOrText
  | txt : String → LabelOrText

/-- A music-score record (`{"score": ..., "label"|"text": ...}`); the
score payload is opaque to this layer and consumed only by the
preprocessing collaborator. -/
structure ScoreRecord where
  score : List Int
  rest : LabelOrText

/-- The primary `text` argument of the synthesis call: either an aligned
tensor or a structured score record. -/
inductive TextArg where
  | tensor : Tensor → TextArg
  | dct : ScoreRecord → TextArg

/-- The conditioning batch assembled for the model call: `text` always,
every other slot present iff the corresponding local was non-None
(source lines 237-264). -/
structure Batch where
  text : Tensor
  singing : Option Tensor := none
  label : Option Tensor := none
  midi : Option Tensor := none
  duration_phn : Option Tensor := none
  duration_ruled_phn : Option Tensor := none
  duration_syb : Option Tensor := none
  pitch : Option Tensor := none
  phn_cnt : Option Tensor := none
  slur : Option Tensor := none
  energy : Option Tensor := none
  spembs : Option Tensor := none
  sids : Option Tensor := none
  lids : Option Tensor := none
  discrete_token : Option Tensor := none

/-- What the vocoder receives: a tensor, or (after the `use_singomd`
decomposition) a resolution-keyed dictionary of tensors. -/
inductive VocoderInput where
  | tens : Tensor → VocoderInput
  | resdict : List (Nat × Tensor) → VocoderInput
deriving DecidableEq, Repr

/-- Arguments of one `SingingGenerate.__call__`; `use_singomd` models
`kwargs.get("use_singomd", False)`. -/
structure CallInputs where
  text : TextArg
  singing : Option Tensor := none
  label : Option Tensor := none
  midi : Option Tensor := none
  duration_phn : Option Tensor := none
  duration_ruled_phn : Option Tensor := none
  duration_syb : Option Tensor := none
  phn_cnt : Option Tensor := none
  slur : Option Tensor := none
  pitch : Option Tensor := none
  energy : Option Tensor := none
  spembs : Option Tensor := none
  sids : Option Tensor := none
  lids : Option Tensor := none
  discrete_token : Option Tensor := none
  decode_conf : Option (List (String × ConfVal)) := none
  use_singomd : Bool := false

/-- The synthesis orchestrator (`SingingGenerate`) after construction:
the read-only decode configuration, the acoustic model's conditioning
spaces (`self.svs.spks` / `langs` / `spk_embed_dim`), the optional
vocoder, the reshaping settings, and the external collaborators as
opaque functions. -/
structure SingingGenerate where
  svs_spks : Option Nat
  svs_langs : Option Nat
  svs_spk_embed_dim : Option Nat
  svs_variant : SvsVariant
  decode_conf : List (String × ConfVal)
  vocoder : Option (VocoderInput → Option Tensor → Tensor)
  prefer_normalized_feats : Bool
  discrete_token_layers : Nat
  mix_type : String
  model_inference : Batch → List (String × ConfVal) → ModelOutput
  preprocess_fn : ScoreRecord → PreprocOut
  duration_calculator : Tensor → Tensor × Rat

/-- Property `use_sids`: a speaker-id space is defined
(`self.svs.spks is not None`). -/
def SingingGenerate.use_sids (g : SingingGenerate) : Bool :=
  g.svs_spks.isSome

/-- Property `use_lids`: a language space is defined
(`self.svs.langs is not None`). -/
def SingingGenerate.use_lids (g : SingingGenerate) : Bool :=
  g.svs_langs.isSome

/-- Property `use_spembs`: a speaker-embedding dimension is defined
(`self.svs.spk_embed_dim is not None`). -/
def SingingGenerate.use_spembs (g : SingingGenerate) : Bool :=
  g.svs_spk_embed_dim.isSome

/-- Batch preparation (source lines 216-265): with a score record the
preprocessing collaborator supplies label / midi / duration / phoneme
count / slur tensors (all then non-None) and the batch text is the
preprocessed label; with a plain tensor the supplied optional slots are
used.  `to_device` is the identity here. -/
def SingingGenerate.prepBatch (g : SingingGenerate) (inp : CallInputs) : Batch :=
  match inp.text with
  | .dct rec =>
    let data := g.preprocess_fn rec
    { text := data.label
      singing := inp.singing
      label := some data.label
      midi := some data.midi
      duration_phn := some data.duration_phn
      duration_ruled_phn := some data.duration_ruled_phn
      duration_syb := some data.duration_syb
      pitch := inp.pitch
      phn_cnt := some data.phn_cnt
      slur := some data.slur
      energy := inp.energy
      spembs := inp.spembs
      sids := inp.sids
      lids := inp.lids
      discrete_token := inp.discrete_token }
  | .tensor t =>
    { text := t
      singing := inp.singing
      label := inp.label
      midi := inp.midi
      duration_phn := inp.duration_phn
      duration_ruled_phn := inp.duration_ruled_phn
      duration_syb := inp.duration_syb
      pitch := inp.pitch
      phn_cnt := inp.phn_cnt
      slur := inp.slur
      energy := inp.energy
      spembs := inp.spembs
      sids := inp.sids
      lids := inp.lids
      discrete_token := inp.discrete_token }

/-- Per-call configuration (source lines 267-270): the stored
configuration, or a fresh copy with the override merged on top
(`cfg = self.decode_conf.copy(); cfg.update(decode_conf)`); the stored
dictionary itself is never written. -/
def SingingGenerate.mergedCfg (g : SingingGenerate) (inp : CallInputs) :
    List (String × ConfVal) :=
  match inp.decode_conf with
  | none => g.decode_conf
  | some ov => dictUpdate g.decode_conf ov

/-- Feature selection for the vocoder (source lines 281-287):
denormalized features unless normalized ones are preferred or the
denormalized ones are absent; `output_dict["feat_gen"]` raises a KeyError
when missing. -/
def selectInputFeat (prefer_norm : Bool) (out : ModelOutput) : Except String Tensor :=
  if prefer_norm || out.feat_gen_denorm.isNone then
    match out.feat_gen with
    | some f => .ok f
    | none => .error "KeyError: feat_gen"
  else
    match out.feat_gen_denorm with
    | some f => .ok f
    | none => .error "KeyError: feat_gen_denorm"

/-- The `mix_type = "frame"` reshape (source line 294):
`input_feat.view(-1, layers)`. -/
def frameReshape (layers : Nat) (t : Tensor) : Except String Tensor :=
  torchViewCols layers t

/-- The `mix_type = "sequence"` reshape (source lines 296-298):
`input_feat.view(layers, -1).transpose(0, 1)`. -/
def seqReshape (layers : Nat) (t : Tensor) : Except String Tensor :=
  (torchViewRows layers t).bind transpose01

/-- The `use_singomd` decomposition body (source lines 302-308): for each
`(i, rs)` in `enumerate([20, 40])` take column `i`, unsqueeze, and keep
every `(rs / 20)`-th row, keyed by `rs`. -/
def singomdLoop (f1 : Tensor) : List (Nat × Nat) → Except String (List (Nat × Tensor))
  | [] => .ok []
  | (i, rs) :: rest =>
    match tensorCol f1 i with
    | .error e => .error e
    | .ok col =>
      let feat := rowStride (rs / 20) (unsqueeze1 col)
      match singomdLoop f1 rest with
      | .error e => .error e
      | .ok tl => .ok ((rs, feat) :: tl)

/-- The fixed resolution table of the `use_singomd` path. -/
def singomdResolution : List Nat := [20, 40]

/-- Multi-layer reshaping and optional `singomd` decomposition of the
vocoder input (source lines 291-308): only when the layer count exceeds
one; a `mix_type` that is neither "frame" nor "sequence" leaves the
feature untouched. -/
def reshapeFeat (layers : Nat) (mix : String) (use_singomd : Bool) (feat0 : Tensor) :
    Except String VocoderInput :=
  if layers > 1 then
    let r1 : Except String Tensor :=
      if mix = "frame" then frameReshape layers feat0
      else if mix = "sequence" then seqReshape layers feat0
      else .ok feat0
    match r1 with
    | .error e => .error e
    | .ok f1 =>
      if use_singomd then
        match singomdLoop f1 singomdResolution.enum with
        | .error e => .error e
        | .ok entries => .ok (.resdict entries)
      else .ok (.tens f1)
  else .ok (.tens feat0)

/-- The full vocoder input computation used by the call: feature
selection followed by the reshaping step. -/
def SingingGenerate.vocoderInputFeat (g : SingingGenerate) (inp : CallInputs)
    (out : ModelOutput) : Except String VocoderInput :=
  match selectInputFeat g.prefer_normalized_feats out with
  | .error e => .error e
  | .ok feat0 => reshapeFeat g.discrete_token_layers g.mix_type inp.use_singomd feat0

/-- Observable result of one synthesis call: the returned output (or the
raised error), whether the acoustic model was invoked, the configuration
it received, every vocoder invocation (input feature and pitch), and the
orchestrator state after the call (the method assigns no attribute of
`self`; the per-call copy on source line 269 keeps `decode_conf`
untouched). -/
structure CallResult where
  result : Except String ModelOutput
  modelInvoked : Bool
  modelCfg : Option (List (String × ConfVal))
  vocoderCalls : List (VocoderInput × Option Tensor)
  orchAfter : SingingGenerate

/-- Post-model processing (source lines 273-321): with attention weights,
derive duration and focus rate via the duration-calculation collaborator;
otherwise set both to None and, when a vocoder is configured, run vocoder
post-processing (feature selection, reshaping, the pitch-shape assertion,
and the vocoder call storing `wav`). -/
def SingingGenerate.postProcess (g : SingingGenerate) (inp : CallInputs)
    (cfg : List (String × ConfVal)) (out0 : ModelOutput) : CallResult :=
  match out0.att_w with
  | some aw =>
    let df := g.duration_calculator aw
    { result := .ok { out0 with duration := some df.1, focus_rate := some df.2 }
      modelInvoked := true, modelCfg := some cfg, vocoderCalls := [], orchAfter := g }
  | none =>
    let out1 := { out0 with duration := none, focus_rate := none }
    match g.vocoder with
    | none =>
      { result := .ok out1
        modelInvoked := true, modelCfg := some cfg, vocoderCalls := [], orchAfter := g }
    | some voc =>
      match g.vocoderInputFeat inp out1 with
      | .error e =>
        { result := .error e
          modelInvoked := true, modelCfg := some cfg, vocoderCalls := [], orchAfter := g }
      | .ok vin =>
        match out1.pitch with
        | some p =>
          if p.shape.length ≠ 1 then
            { result := .error "AssertionError: pitch shape must be (T,)."
              modelInvoked := true, modelCfg := some cfg, vocoderCalls := [], orchAfter := g }
          else
            { result := .ok { out1 with wav := some (voc vin (some p)) }
              modelInvoked := true, modelCfg := some cfg
              vocoderCalls := [(vin, some p)], orchAfter := g }
        | none =>
          { result := .ok { out1 with wav := some (voc vin none) }
            modelInvoked := true, modelCfg := some cfg
            vocoderCalls := [(vin, none)], orchAfter := g }

/-- One synthesis call (`SingingGenerate.__call__`, source lines 187-321):
the three conditioning precondition checks first (RuntimeError before any
model work), then batch preparation, configuration merge, the model
invocation, and post-processing. -/
def SingingGenerate.call (g : SingingGenerate) (inp : CallInputs) : CallResult :=
  if g.use_sids && inp.sids.isNone then
    { result := .error "RuntimeError: Missing required argument: sids"
      modelInvoked := false, modelCfg := none, vocoderCalls := [], orchAfter := g }
  else if g.use_lids && inp.lids.isNone then
    { result := .error "RuntimeError: Missing required argument: lids"
      modelInvoked := false, modelCfg := none, vocoderCalls := [], orchAfter := g }
  else if g.use_spembs && inp.spembs.isNone then
    { result := .error "RuntimeError: Missing required argument: spembs"
      modelInvoked := false, modelCfg := none, vocoderCalls := [], orchAfter := g }
  else
    let cfg := g.mergedCfg inp
    let out0 := g.model_inference (g.prepBatch inp) cfg
    g.postProcess inp cfg out0

/-- Per-channel utterance counters of one batch-runner run: how many
utterances each output channel received. -/
structure ChannelCounts where
  norm : Nat := 0
  denorm : Nat := 0
  speech_shape : Nat := 0
  durations : Nat := 0
  focus_rates : Nat := 0
  att_ws : Nat := 0
  probs : Nat := 0
  wav : Nat := 0
deriving DecidableEq, Repr

/-- A raw loaded batch: a mapping from data key to the batched (length-1)
list of per-utterance tensors, as yielded by the streaming loader. -/
def RawBatch := List (String × List Tensor)

/-- Tail of the per-utterance write section (source lines 566-640):
duration and focus-rate lines, the attention-weight plot (rank must be 2
or 4, else a RuntimeError), the stop-probability plot, and the waveform
file plus its scp line.  Returns the counters as accumulated up to a
possible error. -/
def writeUttTail (out : ModelOutput) (c2 : ChannelCounts) :
    ChannelCounts × Option String :=
  let c3 := if out.duration.isSome then { c2 with durations := c2.durations + 1 } else c2
  let c4 := if out.focus_rate.isSome then { c3 with focus_rates := c3.focus_rates + 1 } else c3
  match out.att_w with
  | some aw =>
    if aw.shape.length = 2 ∨ aw.shape.length = 4 then
      let c5 := { c4 with att_ws := c4.att_ws + 1 }
      let c6 := if out.prob.isSome then { c5 with probs := c5.probs + 1 } else c5
      let c7 := if out.wav.isSome then { c6 with wav := c6.wav + 1 } else c6
      (c7, none)
    else (c4, some "RuntimeError: Must be 2 or 4 dimension")
  | none =>
    let c6 := if out.prob.isSome then { c4 with probs := c4.probs + 1 } else c4
    let c7 := if out.wav.isSome then { c6 with wav := c6.wav + 1 } else c6
    (c7, none)

/-- Per-utterance write section (source lines 540-640): the feature path
writes normalized features, the shape line and (when present)
denormalized features; the end-to-end path reads `output_dict["wav"]`
(KeyError when absent); then the tail section. -/
def writeUtt (out : ModelOutput) (c0 : ChannelCounts) :
    ChannelCounts × Option String :=
  match out.feat_gen with
  | some _ =>
    let c1 := { c0 with norm := c0.norm + 1, speech_shape := c0.speech_shape + 1 }
    let c2 := if out.feat_gen_denorm.isSome then { c1 with denorm := c1.denorm + 1 } else c1
    writeUttTail out c2
  | none =>
    match out.wav with
    | some _ => writeUttTail out c0
    | none => (c0, some "KeyError: wav")

/-- Keyword binding of `singingGenerate(**batch, use_singomd=...)` for a
loader batch: the known parameter names are looked up (a missing `text`
is a TypeError); unknown keys fall into `**kwargs` and are ignored. -/
def toCallInputs (b : List (String × Tensor)) (use_singomd : Bool) :
    Except String CallInputs :=
  match b.lookup "text" with
  | none => .error "TypeError: missing required argument: text"
  | some t =>
    .ok { text := .tensor t
          singing := b.lookup "singing"
          label := b.lookup "label"
          midi := b.lookup "midi"
          duration_phn := b.lookup "duration_phn"
          duration_ruled_phn := b.lookup "duration_ruled_phn"
          duration_syb := b.lookup "duration_syb"
          phn_cnt := b.lookup "phn_cnt"
          slur := b.lookup "slur"
          pitch := b.lookup "pitch"
          energy := b.lookup "energy"
          spembs := b.lookup "spembs"
          sids := b.lookup "sids"
          lids := b.lookup "lids"
          discrete_token := b.lookup "discrete_token"
          decode_conf := none
          use_singomd := use_singomd }

/-- One loop iteration up to the synthesis call (source lines 522-537):
the single-utterance batch assertion, stripping of `*_lengths` keys and
the batch dimension, access to `keys[0]`, keyword binding, and the
orchestrator call. -/
def stepUtt (g : SingingGenerate) (use_singomd : Bool) (keys : List String)
    (rb : RawBatch) : Except String ModelOutput :=
  match rb with
  | [] => .error "StopIteration: empty batch mapping"
  | (_, v0) :: _ =>
    if v0.length ≠ 1 then .error "AssertionError: batch size must be 1"
    else if (rb.any fun kv => !(kv.1.endsWith "_lengths") && kv.2.isEmpty) then
      .error "IndexError: list index out of range"
    else
      let b1 : List (String × Tensor) :=
        rb.filterMap fun kv =>
          if kv.1.endsWith "_lengths" then none
          else kv.2.head?.map fun t => (kv.1, t)
      match keys with
      | [] => .error "IndexError: list index out of range"
      | _ :: _ =>
        match toCallInputs b1 use_singomd with
        | .error e => .error e
        | .ok inp =>
          match (g.call inp).result with
          | .error e => .error e
          | .ok out => .ok out

/-- The streaming loop (source lines 521-640): one utterance at a time,
threading the channel counters and remembering the last `output_dict`;
the first raised error aborts the loop. -/
def runLoop (g : SingingGenerate) (use_singomd : Bool) :
    List (List String × RawBatch) → ChannelCounts → Option ModelOutput →
    ChannelCounts × Option ModelOutput × Option String
  | [], c, last => (c, last, none)
  | (keys, rb) :: rest, c, last =>
    match stepUtt g use_singomd keys rb with
    | .error e => (c, last, some e)
    | .ok out =>
      match writeUtt out c with
      | (c1, some e) => (c1, some out, some e)
      | (c1, none) => runLoop g use_singomd rest c1 (some out)

/-- The channel directories removed at run end (source lines 642-656):
one `shutil.rmtree` per channel whose key is None in the last
`output_dict`; `speech_shape` is never pruned. -/
def prunedDirs (out : ModelOutput) : List String :=
  (if out.feat_gen.isNone then ["norm"] else []) ++
  (if out.feat_gen_denorm.isNone then ["denorm"] else []) ++
  (if out.att_w.isNone then ["att_ws"] else []) ++
  (if out.duration.isNone then ["durations"] else []) ++
  (if out.focus_rate.isNone then ["focus_rates"] else []) ++
  (if out.prob.isNone then ["probs"] else []) ++
  (if out.wav.isNone then ["wav"] else [])

/-- The eight output channel directories created before streaming
(source lines 491-498). -/
def outputDirs : List String :=
  ["norm", "denorm", "speech_shape", "wav", "att_ws", "probs", "durations", "focus_rates"]

/-- Observable outcome of one batch-runner run: the raised error if any,
which effectful phases ran (model construction, loader construction,
directory creation), the per-channel counters, the last synthesis output,
and the directories removed at finalize. -/
structure RunOutcome where
  error : Option String
  modelBuilt : Bool
  loaderBuilt : Bool
  dirsCreated : List String
  counts : ChannelCounts
  lastOutput : Option ModelOutput
  removed : List String

/-- The batch runner (`inference`, source lines 418-656): fail-fast
checks on `batch_size` and `ngpu` before any work, then model and loader
construction, channel-directory creation, the streaming loop, and — only
when the loop raised nothing — the pruning step, which reads the loop's
last `output_dict` (a name that was never bound when the loader yielded
zero utterances, so that read raises a NameError before any removal). -/
def inference (batch_size ngpu : Nat) (g : SingingGenerate)
    (loader : List (List String × RawBatch)) (use_singomd : Bool) : RunOutcome :=
  if batch_size > 1 then
    { error := some "NotImplementedError: batch decoding is not implemented"
      modelBuilt := false, loaderBuilt := false, dirsCreated := []
      counts := {}, lastOutput := none, removed := [] }
  else if ngpu > 1 then
    { error := some "NotImplementedError: only single GPU decoding is supported"
      modelBuilt := false, loaderBuilt := false, dirsCreated := []
      counts := {}, lastOutput := none, removed := [] }
  else
    let res := runLoop g use_singomd loader {} none
    match res.2.2 with
    | some e =>
      { error := some e, modelBuilt := true, loaderBuilt := true
        dirsCreated := outputDirs, counts := res.1
        lastOutput := res.2.1, removed := [] }
    | none =>
      match res.2.1 with
      | none =>
        { error := some "NameError: name output_dict is not defined"
          modelBuilt := true, loaderBuilt := true, dirsCreated := outputDirs
          counts := res.1, lastOutput := none, removed := [] }
      | some out =>
        { error := none, modelBuilt := true, loaderBuilt := true
          dirsCreated := outputDirs, counts := res.1
          lastOutput := some out, removed := prunedDirs out }

/-! ## Dictionary lookup lemmas for the per-call configuration merge -/

/-- Lookup distributes over list append, preferring the left part. -/
theorem lookup_append (l1 l2 : List (String × ConfVal)) (k : String) :
    (l1 ++ l2).lookup k = ((l1.lookup k).or (l2.lookup k)) := by
  induction l1 with
  | nil => simp [List.lookup]
  | cons p tl ih =>
    by_cases h : k = p.1
    · have hb : (k == p.1) = true := beq_iff_eq.mpr h
      simp [List.lookup, hb]
    · have hb : (k == p.1) = false := beq_eq_false_iff_ne.mpr h
      simp [List.lookup, hb, ih]

/-- Lookup in the overwritten base part of `dictUpdate`: a base key takes
the override's value when the override carries the key. -/
theorem lookup_mapped_base (b o : List (String × ConfVal)) (k : String) :
    ((b.map fun p =>
        match o.lookup p.1 with
        | some v => (p.1, v)
        | none => p).lookup k) =
      match b.lookup k with
      | some w =>
        some (match o.lookup k with
              | some v => v
              | none => w)
      | none => none := by
  induction b with
  | nil => simp [List.lookup]
  | cons p tl ih =>
    by_cases h : k = p.1
    · have hb : (k == p.1) = true := beq_iff_eq.mpr h
      cases ho : o.lookup p.1 <;>
        simp [List.lookup, ho, hb, h, ih]
    · have hb : (k == p.1) = false := beq_eq_false_iff_ne.mpr h
      cases ho : o.lookup p.1 <;>
        simp [List.lookup, ho, hb, ih]

/-- Lookup in the appended part of `dictUpdate`: for a key absent from
the base, the filter does not disturb the override's lookup. -/
theorem lookup_filtered (b o : List (String × ConfVal)) (k : String)
    (hb : b.lookup k = none) :
    ((o.filter fun q => (b.lookup q.1).isNone).lookup k) = o.lookup k := by
  induction o with
  | nil => simp
  | cons q tl ih =>
    by_cases h : k = q.1
    · have hbe : (k == q.1) = true := beq_iff_eq.mpr h
      have hq : List.lookup q.1 b = none := h ▸ hb
      simp [List.filter, hq, List.lookup, hbe, ih]
    · have hbe : (k == q.1) = false := beq_eq_false_iff_ne.mpr h
      cases hq : (b.lookup q.1).isNone <;>
        simp [List.filter, hq, List.lookup, hbe, ih]

/-- Python `dict.update` semantics of the merge: the override wins
key-by-key and base keys not overridden are retained. -/
theorem lookup_dictUpdate (b o : List (String × ConfVal)) (k : String) :
    (dictUpdate b o).lookup k = ((o.lookup k).or (b.lookup k)) := by
  unfold dictUpdate
  rw [lookup_append, lookup_mapped_base]
  cases hb : b.lookup k with
  | none => simp [lookup_filtered b o k hb]
  | some w =>
    cases ho : o.lookup k <;> simp [ho]

/-! ## Structural lemmas about the synthesis call -/

/-- When a call reached the acoustic model, none of the three
precondition checks fired. -/
theorem call_invoked_conditions (g : SingingGenerate) (inp : CallInputs)
    (hpre : (g.call inp).modelInvoked = true) :
    (g.use_sids && inp.sids.isNone) = false ∧
    (g.use_lids && inp.lids.isNone) = false ∧
    (g.use_spembs && inp.spembs.isNone) = false := by
  unfold SingingGenerate.call at hpre
  by_cases h1 : (g.use_sids && inp.sids.isNone) = true
  · simp [h1] at hpre
  · by_cases h2 : (g.use_lids && inp.lids.isNone) = true
    · simp [h1, h2] at hpre
    · by_cases h3 : (g.use_spembs && inp.spembs.isNone) = true
      · simp [h1, h2, h3] at hpre
      · exact ⟨Bool.eq_false_iff.mpr h1, Bool.eq_false_iff.mpr h2, Bool.eq_false_iff.mpr h3⟩

/-- A call that reached the acoustic model is the post-processing of the
model's output under the merged configuration. -/
theorem call_eq_main (g : SingingGenerate) (inp : CallInputs)
    (hpre : (g.call inp).modelInvoked = true) :
    g.call inp =
      g.postProcess inp (g.mergedCfg inp)
        (g.model_inference (g.prepBatch inp) (g.mergedCfg inp)) := by
  obtain ⟨h1, h2, h3⟩ := call_invoked_conditions g inp hpre
  unfold SingingGenerate.call
  simp [h1, h2, h3]

/-- Post-processing never mutates the orchestrator. -/
theorem postProcess_orchAfter (g : SingingGenerate) (inp : CallInputs)
    (cfg : List (String × ConfVal)) (out0 : ModelOutput) :
    (g.postProcess inp cfg out0).orchAfter = g := by
  unfold SingingGenerate.postProcess
  repeat first | rfl | split | dsimp only

/-- Post-processing records exactly the configuration it was given as
the one passed to the model. -/
theorem postProcess_modelCfg (g : SingingGenerate) (inp : CallInputs)
    (cfg : List (String × ConfVal)) (out0 : ModelOutput) :
    (g.postProcess inp cfg out0).modelCfg = some cfg := by
  unfold SingingGenerate.postProcess
  repeat first | rfl | split | dsimp only

/-- Length of the materialized transpose data. -/
theorem transposeData_length (a b : Nat) (d : List Int) :
    (transposeData a b d).length = b * a := by
  simp [transposeData]

/-! ## Structural lemmas about the batch runner -/

/-- A streaming loop over a nonempty loader that raised no error has
bound a last output. -/
theorem runLoop_last_isSome (g : SingingGenerate) (u : Bool) :
    ∀ (l : List (List String × RawBatch)) (c : ChannelCounts) (last : Option ModelOutput),
      l ≠ [] → (runLoop g u l c last).2.2 = none →
      ((runLoop g u l c last).2.1).isSome = true := by
  intro l
  induction l with
  | nil => intro c last hne _; exact absurd rfl hne
  | cons hd tl ih =>
    intro c last _ herr
    obtain ⟨keys, rb⟩ := hd
    cases hstep : stepUtt g u keys rb with
    | error e =>
      rw [runLoop, hstep] at herr
      simp at herr
    | ok out =>
      cases hw : writeUtt out c with
      | mk c1 eopt =>
        cases eopt with
        | some e =>
          rw [runLoop, hstep] at herr
          dsimp only at herr
          rw [hw] at herr
          simp at herr
        | none =>
          rw [runLoop, hstep] at herr ⊢
          dsimp only at herr ⊢
          rw [hw] at herr ⊢
          dsimp only at herr ⊢
          cases tl with
          | nil => rfl
          | cons x xs => exact ih c1 (some out) (by simp) herr

/-- Membership in the pruned-directory list, channel by channel. -/
theorem mem_prunedDirs (out : ModelOutput) :
    ("norm" ∈ prunedDirs out ↔ out.feat_gen = none) ∧
    ("denorm" ∈ prunedDirs out ↔ out.feat_gen_denorm = none) ∧
    ("att_ws" ∈ prunedDirs out ↔ out.att_w = none) ∧
    ("durations" ∈ prunedDirs out ↔ out.duration = none) ∧
    ("focus_rates" ∈ prunedDirs out ↔ out.focus_rate = none) ∧
    ("probs" ∈ prunedDirs out ↔ out.prob = none) ∧
    ("wav" ∈ prunedDirs out ↔ out.wav = none) := by
  unfold prunedDirs
  refine ⟨?_, ?_, ?_, ?_, ?_, ?_, ?_⟩ <;>
    · constructor
      · intro hm
        simp only [List.mem_append] at hm
        rcases hm with ((((((h | h) | h) | h) | h) | h) | h) <;>
          · split at h <;> simp_all [Option.isNone_iff_eq_none]
      · intro hn
        simp [hn, List.mem_append]

/-! ## Concrete instances used by counterexamples and witnesses -/

/-- A one-element label tensor. -/
def tOne : Tensor := ⟨[1], [1]⟩

/-- A second one-element label tensor. -/
def tTwo : Tensor := ⟨[1], [2]⟩

/-- A flat four-element feature tensor. -/
def tFeat4 : Tensor := ⟨[4], [10, 11, 12, 13]⟩

/-- The flat tensor 0,1,2,3 used to exhibit the reshape laws. -/
def tFlat4 : Tensor := ⟨[4], [0, 1, 2, 3]⟩

/-- A flat 100-element feature, the spec's layer-2 scenario input. -/
def t100 : Tensor := ⟨[100], List.replicate 100 0⟩

/-- A 4-D attention-weight tensor. -/
def awC1 : Tensor := ⟨[1, 1, 2, 2], [1, 0, 0, 1]⟩

/-- A stub preprocessing collaborator result. -/
def preStub : PreprocOut := ⟨tOne, tOne, tOne, tOne, tOne, tOne, tOne⟩

/-- A stub vocoder returning a fixed waveform. -/
def vocStub : VocoderInput → Option Tensor → Tensor := fun _ _ => ⟨[1], [7]⟩

/-- A stub duration-calculation collaborator. -/
def durStub : Tensor → Tensor × Rat := fun _ => (⟨[2], [1, 1]⟩, 1/2)

/-- A plain tensor-text call input with no conditioning. -/
def inpT : CallInputs := { text := TextArg.tensor tOne }

/-- A baseline orchestrator: no conditioning spaces, no vocoder, single
token layer, stub collaborators. -/
def baseOrch : SingingGenerate :=
  { svs_spks := none, svs_langs := none, svs_spk_embed_dim := none
    svs_variant := SvsVariant.other
    decode_conf := [("use_teacher_forcing", ConfVal.b false)]
    vocoder := none
    prefer_normalized_feats := false
    discrete_token_layers := 1
    mix_type := "frame"
    model_inference := fun _ _ => {}
    preprocess_fn := fun _ => preStub
    duration_calculator := durStub }

/-- Model output carrying attention weights and no waveform. -/
def outAtt : ModelOutput := { feat_gen := some tFeat4, att_w := some awC1 }

/-- Model output already carrying a waveform (and no attention weights). -/
def outWav : ModelOutput := { feat_gen := some tFeat4, wav := some ⟨[1], [9]⟩ }

/-- Model output carrying a stop-probability curve. -/
def outProbs : ModelOutput := { feat_gen := some tFeat4, prob := some ⟨[3], [0, 0, 1]⟩ }

/-- Model output carrying only features. -/
def outPlain : ModelOutput := { feat_gen := some tFeat4 }

/-- Orchestrator whose model yields attention weights, with a vocoder
configured. -/
def gAtt : SingingGenerate :=
  { baseOrch with vocoder := some vocStub, model_inference := fun _ _ => outAtt }

/-- Orchestrator whose model yields a waveform directly, with a vocoder
configured. -/
def gWav : SingingGenerate :=
  { baseOrch with vocoder := some vocStub, model_inference := fun _ _ => outWav }

/-- Orchestrator with a speaker-id space defined. -/
def gSid : SingingGenerate := { baseOrch with svs_spks := some 2 }

/-- Orchestrator for batch-runner runs: the stop-probability curve is
produced for the first utterance only. -/
def gRun : SingingGenerate :=
  { baseOrch with model_inference := fun b _ => if b.text = tOne then outProbs else outPlain }

/-- Orchestrator with two token layers, an unrecognized `mix_type`, and a
vocoder configured. -/
def gMix : SingingGenerate :=
  { baseOrch with
    vocoder := some vocStub
    discrete_token_layers := 2
    mix_type := "mixed"
    model_inference := fun _ _ => outPlain }

/-- A two-utterance loader whose utterances differ in their text tensor. -/
def loaderTwo : List (List String × RawBatch) :=
  [(["utt1"], [("text", [tOne])]), (["utt2"], [("text", [tTwo])])]

/-- A per-call decode-configuration override. -/
def ovW : List (String × ConfVal) :=
  [("use_teacher_forcing", ConfVal.b true), ("noise_scale", ConfVal.q 1)]

/-- A call input carrying the override. -/
def inpOv : CallInputs := { text := TextArg.tensor tOne, decode_conf := some ovW }

/-! ## Claim theorems -/

/-- C1, counterexample.  The claim states that when the model output
carries attention weights and no waveform and a vocoder is configured,
duration and focus rate are non-None AND the vocoder is invoked exactly
once.  At this concrete input (vocoder configured, `att_w` non-None,
`wav` None) duration and focus rate are indeed non-None, but the vocoder
is invoked zero times, not once: vocoder post-processing sits inside the
no-attention-weights branch of the source. -/
theorem C1_counterexample :
    gAtt.vocoder.isSome = true ∧
    outAtt.att_w.isSome = true ∧ outAtt.wav = none ∧
    (∃ o, (gAtt.call inpT).result = Except.ok o ∧
      o.duration.isSome = true ∧ o.focus_rate.isSome = true) ∧
    (gAtt.call inpT).vocoderCalls.length = 0 ∧
    ¬ ((gAtt.call inpT).vocoderCalls.length = 1) := by
  refine ⟨rfl, rfl, rfl, ⟨_, rfl, rfl, rfl⟩, rfl, ?_⟩
  intro h
  rw [show (gAtt.call inpT).vocoderCalls = [] from rfl] at h
  simp at h

/-- C1, amended.  For every synthesis call that reaches the acoustic
model and whose output carries attention weights, the returned output has
non-None `duration` and `focus_rate` computed by the duration-calculation
collaborator, and the vocoder is NOT invoked (zero invocations): vocoder
post-processing runs only in the no-attention-weights branch. -/
theorem C1_attention_duration_no_vocoder (g : SingingGenerate) (inp : CallInputs)
    (out0 : ModelOutput) (aw : Tensor)
    (hm : g.model_inference (g.prepBatch inp) (g.mergedCfg inp) = out0)
    (hpre : (g.call inp).modelInvoked = true)
    (hatt : out0.att_w = some aw) :
    (g.call inp).vocoderCalls = [] ∧
    (g.call inp).result =
      .ok { out0 with
            duration := some (g.duration_calculator aw).1
            focus_rate := some (g.duration_calculator aw).2 } := by
  rw [call_eq_main g inp hpre, hm]
  unfold SingingGenerate.postProcess
  rw [hatt]
  exact ⟨rfl, rfl⟩

/-- C1, witness for the amended theorem at the concrete attention-weight
scenario. -/
theorem C1_witness :
    (gAtt.model_inference (gAtt.prepBatch inpT) (gAtt.mergedCfg inpT) = outAtt ∧
     (gAtt.call inpT).modelInvoked = true ∧
     outAtt.att_w = some awC1) ∧
    ((gAtt.call inpT).vocoderCalls = [] ∧
     (gAtt.call inpT).result =
       .ok { outAtt with
             duration := some (gAtt.duration_calculator awC1).1
             focus_rate := some (gAtt.duration_calculator awC1).2 }) :=
  ⟨⟨rfl, rfl, rfl⟩,
   C1_attention_duration_no_vocoder gAtt inpT outAtt awC1 rfl rfl rfl⟩

/-- C2, counterexample.  The claim states that when the model output
already carries a waveform, the configured vocoder is not invoked and
duration / focus rate are None.  At this concrete input (`wav` non-None,
`att_w` None, vocoder configured) the vocoder IS invoked — once, with
the selected feature — and its result overwrites the model's waveform:
the source gates vocoder post-processing on the absence of attention
weights, not on the presence of a waveform. -/
theorem C2_counterexample :
    outWav.wav = some ⟨[1], [9]⟩ ∧
    gWav.vocoder.isSome = true ∧
    (gWav.call inpT).vocoderCalls.length = 1 ∧
    ¬ ((gWav.call inpT).vocoderCalls = []) ∧
    (∃ o, (gWav.call inpT).result = Except.ok o ∧
      o.duration = none ∧ o.focus_rate = none ∧ o.wav = some ⟨[1], [7]⟩) := by
  refine ⟨rfl, rfl, rfl, ?_, ⟨_, rfl, rfl, rfl, rfl⟩⟩
  intro h
  rw [show (gWav.call inpT).vocoderCalls = [(VocoderInput.tens tFeat4, none)] from rfl] at h
  simp at h

/-- C2, amended.  Duration and focus rate are explicitly None whenever
the model output carries no attention weights, and in that case a
configured vocoder is invoked exactly once with the selected feature
tensor — even when the output already carries a waveform, which the
vocoder's result then overwrites.  Vocoder post-processing is gated on
the absence of attention weights, not on the absence of a waveform. -/
theorem C2_vocoder_gated_on_attention (g : SingingGenerate) (inp : CallInputs)
    (out0 : ModelOutput) (voc : VocoderInput → Option Tensor → Tensor)
    (vin : VocoderInput) (w : Tensor)
    (hm : g.model_inference (g.prepBatch inp) (g.mergedCfg inp) = out0)
    (hpre : (g.call inp).modelInvoked = true)
    (hatt : out0.att_w = none)
    (hwav : out0.wav = some w)
    (hvoc : g.vocoder = some voc)
    (hfeat : g.vocoderInputFeat inp { out0 with duration := none, focus_rate := none } = .ok vin)
    (hpitch : out0.pitch = none) :
    (g.call inp).vocoderCalls = [(vin, none)] ∧
    (g.call inp).result =
      .ok { out0 with duration := none, focus_rate := none, wav := some (voc vin none) } := by
  rw [call_eq_main g inp hpre, hm]
  unfold SingingGenerate.postProcess
  rw [hatt] at hfeat
  rw [hatt, hvoc]
  dsimp only
  rw [hfeat, hpitch]
  exact ⟨rfl, rfl⟩

/-- C2, witness for the amended theorem at the concrete
waveform-already-present scenario. -/
theorem C2_witness :
    (gWav.model_inference (gWav.prepBatch inpT) (gWav.mergedCfg inpT) = outWav ∧
     (gWav.call inpT).modelInvoked = true ∧
     outWav.att_w = none ∧
     outWav.wav = some ⟨[1], [9]⟩ ∧
     gWav.vocoder = some vocStub ∧
     gWav.vocoderInputFeat inpT { outWav with duration := none, focus_rate := none } =
       .ok (VocoderInput.tens tFeat4) ∧
     outWav.pitch = none) ∧
    ((gWav.call inpT).vocoderCalls = [(VocoderInput.tens tFeat4, none)] ∧
     (gWav.call inpT).result =
       .ok { outWav with
             duration := none, focus_rate := none
             wav := some (vocStub (VocoderInput.tens tFeat4) none) }) :=
  ⟨⟨rfl, rfl, rfl, rfl, rfl, rfl, rfl⟩,
   C2_vocoder_gated_on_attention gWav inpT outWav vocStub (VocoderInput.tens tFeat4)
     ⟨[1], [9]⟩ rfl rfl rfl rfl rfl rfl rfl⟩

/-- C3.  Whenever a needed conditioning slot is missing — `sids` None
while a speaker-id space is defined, `lids` None while a language space
is defined, or `spembs` None while an embedding dimension is defined —
the synthesis call fails with a RuntimeError precondition message and the
acoustic model is never invoked. -/
theorem C3_missing_slot_precondition (g : SingingGenerate) (inp : CallInputs)
    (h : (g.use_sids = true ∧ inp.sids = none) ∨
         (g.use_lids = true ∧ inp.lids = none) ∨
         (g.use_spembs = true ∧ inp.spembs = none)) :
    ((g.call inp).result = .error "RuntimeError: Missing required argument: sids" ∨
     (g.call inp).result = .error "RuntimeError: Missing required argument: lids" ∨
     (g.call inp).result = .error "RuntimeError: Missing required argument: spembs") ∧
    (g.call inp).modelInvoked = false := by
  unfold SingingGenerate.call
  by_cases h1 : (g.use_sids && inp.sids.isNone) = true
  · rw [if_pos h1]
    exact ⟨Or.inl rfl, rfl⟩
  · rw [if_neg h1]
    by_cases h2 : (g.use_lids && inp.lids.isNone) = true
    · rw [if_pos h2]
      exact ⟨Or.inr (Or.inl rfl), rfl⟩
    · rw [if_neg h2]
      by_cases h3 : (g.use_spembs && inp.spembs.isNone) = true
      · rw [if_pos h3]
        exact ⟨Or.inr (Or.inr rfl), rfl⟩
      · exfalso
        rcases h with ⟨hu, hn⟩ | ⟨hu, hn⟩ | ⟨hu, hn⟩
        · exact h1 (by simp [hu, hn])
        · exact h2 (by simp [hu, hn])
        · exact h3 (by simp [hu, hn])

/-- C3, witness: a model with a speaker-id space and a call without
`sids`. -/
theorem C3_witness :
    (gSid.use_sids = true ∧ inpT.sids = none) ∧
    (((gSid.call inpT).result = .error "RuntimeError: Missing required argument: sids" ∨
      (gSid.call inpT).result = .error "RuntimeError: Missing required argument: lids" ∨
      (gSid.call inpT).result = .error "RuntimeError: Missing required argument: spembs") ∧
     (gSid.call inpT).modelInvoked = false) :=
  ⟨⟨rfl, rfl⟩, C3_missing_slot_precondition gSid inpT (Or.inl ⟨rfl, rfl⟩)⟩

/-- C4, counterexample.  The claim states that a channel directory is
deleted at run end iff the channel received zero utterances across the
whole run, and that a channel with at least one utterance's data is
retained.  In this completed two-utterance run the `probs` channel
received one utterance (the first output carries a stop-probability
curve, the second does not), yet its directory is removed: the pruning
step inspects only the final utterance's output dict. -/
theorem C4_counterexample :
    (inference 1 0 gRun loaderTwo false).error = none ∧
    (inference 1 0 gRun loaderTwo false).counts.probs = 1 ∧
    "probs" ∈ (inference 1 0 gRun loaderTwo false).removed := by
  refine ⟨rfl, rfl, ?_⟩
  rw [show (inference 1 0 gRun loaderTwo false).removed =
      ["denorm", "att_ws", "durations", "focus_rates", "probs", "wav"] from rfl]
  simp

/-- C4, amended.  For every completed run (no abort, nonempty loader),
the set of deleted channel directories is determined solely by the FINAL
utterance's output dict: a channel's directory is removed iff the
corresponding key is None in the last output, regardless of what earlier
utterances produced. -/
theorem C4_prune_by_last_output (bs ngpu : Nat) (g : SingingGenerate)
    (loader : List (List String × RawBatch)) (u : Bool)
    (hne : loader ≠ [])
    (hok : (inference bs ngpu g loader u).error = none) :
    ∃ out, (inference bs ngpu g loader u).lastOutput = some out ∧
      (inference bs ngpu g loader u).removed = prunedDirs out ∧
      ("norm" ∈ prunedDirs out ↔ out.feat_gen = none) ∧
      ("denorm" ∈ prunedDirs out ↔ out.feat_gen_denorm = none) ∧
      ("att_ws" ∈ prunedDirs out ↔ out.att_w = none) ∧
      ("durations" ∈ prunedDirs out ↔ out.duration = none) ∧
      ("focus_rates" ∈ prunedDirs out ↔ out.focus_rate = none) ∧
      ("probs" ∈ prunedDirs out ↔ out.prob = none) ∧
      ("wav" ∈ prunedDirs out ↔ out.wav = none) := by
  unfold inference at hok ⊢
  by_cases hbs : bs > 1
  · rw [if_pos hbs] at hok; simp at hok
  · rw [if_neg hbs] at hok ⊢
    by_cases hng : ngpu > 1
    · rw [if_pos hng] at hok; simp at hok
    · rw [if_neg hng] at hok ⊢
      dsimp only at hok ⊢
      cases herr : (runLoop g u loader {} none).2.2 with
      | some e =>
        rw [herr] at hok
        simp at hok
      | none =>
        dsimp only at hok ⊢
        cases hlast : (runLoop g u loader {} none).2.1 with
        | none =>
          have hs := runLoop_last_isSome g u loader {} none hne herr
          rw [hlast] at hs
          simp at hs
        | some out =>
          dsimp only at hok ⊢
          obtain ⟨m1, m2, m3, m4, m5, m6, m7⟩ := mem_prunedDirs out
          exact ⟨out, rfl, rfl, m1, m2, m3, m4, m5, m6, m7⟩

/-- C4, witness for the amended theorem at the concrete two-utterance
run. -/
theorem C4_witness :
    (loaderTwo ≠ [] ∧ (inference 1 0 gRun loaderTwo false).error = none) ∧
    (∃ out, (inference 1 0 gRun loaderTwo false).lastOutput = some out ∧
      (inference 1 0 gRun loaderTwo false).removed = prunedDirs out ∧
      ("norm" ∈ prunedDirs out ↔ out.feat_gen = none) ∧
      ("denorm" ∈ prunedDirs out ↔ out.feat_gen_denorm = none) ∧
      ("att_ws" ∈ prunedDirs out ↔ out.att_w = none) ∧
      ("durations" ∈ prunedDirs out ↔ out.duration = none) ∧
      ("focus_rates" ∈ prunedDirs out ↔ out.focus_rate = none) ∧
      ("probs" ∈ prunedDirs out ↔ out.prob = none) ∧
      ("wav" ∈ prunedDirs out ↔ out.wav = none)) :=
  ⟨⟨by simp [loaderTwo], rfl⟩,
   C4_prune_by_last_output 1 0 gRun loaderTwo false (by simp [loaderTwo]) rfl⟩

/-- C5.  The claim states that a run whose loader yields zero utterances
still performs the FINALIZE pruning step without error.  The code
instead raises a NameError during finalize: with zero loop iterations the
name `output_dict` was never bound, so the very first pruning check
fails and no directory is removed, while all eight channel directories
were created and remain.  This closed theorem evaluates the runner at
the failing input (the empty loader). -/
theorem C5_empty_loader_finalize_error :
    (inference 1 0 gRun [] false).error =
      some "NameError: name output_dict is not defined" ∧
    (inference 1 0 gRun [] false).removed = [] ∧
    (inference 1 0 gRun [] false).dirsCreated = outputDirs ∧
    (inference 1 0 gRun [] false).counts = {} :=
  ⟨rfl, rfl, rfl, rfl⟩

/-- C6.  For every flag assignment, the decode configuration built at
construction carries exactly the documented key set: the flow-based
(VITS) variant gets the universal teacher-forcing flag plus the two noise
scales; the autoregressive attention-based (singing-tacotron) variant
gets the universal flag plus threshold, length ratios, attention
constraint and dynamic-filter flags, and the attention windows; any other
variant gets exactly the universal flag (the non-error default path). -/
theorem C6_decode_conf_key_sets (f : InitFlags) :
    (buildDecodeConf SvsVariant.vits f).map Prod.fst =
      ["use_teacher_forcing", "noise_scale", "noise_scale_dur"] ∧
    (buildDecodeConf SvsVariant.singing_tacotron f).map Prod.fst =
      ["use_teacher_forcing", "threshold", "maxlenratio", "minlenratio",
       "use_att_constraint", "use_dynamic_filter", "forward_window", "backward_window"] ∧
    (buildDecodeConf SvsVariant.other f).map Prod.fst = ["use_teacher_forcing"] :=
  ⟨rfl, rfl, rfl⟩

/-- C6, witness: the key sets at the default flag assignment. -/
theorem C6_witness :
    (buildDecodeConf SvsVariant.vits {}).map Prod.fst =
      ["use_teacher_forcing", "noise_scale", "noise_scale_dur"] ∧
    (buildDecodeConf SvsVariant.singing_tacotron {}).map Prod.fst =
      ["use_teacher_forcing", "threshold", "maxlenratio", "minlenratio",
       "use_att_constraint", "use_dynamic_filter", "forward_window", "backward_window"] ∧
    (buildDecodeConf SvsVariant.other {}).map Prod.fst = ["use_teacher_forcing"] :=
  C6_decode_conf_key_sets {}

/-- C7.  A batch-runner invocation with `batch_size` or `ngpu` above one
aborts with a precondition error before any work: no output channel
directory is created, no model is constructed, no loader is built, no
channel receives data, and nothing is removed. -/
theorem C7_fail_fast (bs ngpu : Nat) (g : SingingGenerate)
    (loader : List (List String × RawBatch)) (u : Bool)
    (h : bs > 1 ∨ ngpu > 1) :
    (inference bs ngpu g loader u).error.isSome = true ∧
    (inference bs ngpu g loader u).dirsCreated = [] ∧
    (inference bs ngpu g loader u).modelBuilt = false ∧
    (inference bs ngpu g loader u).loaderBuilt = false ∧
    (inference bs ngpu g loader u).counts = {} ∧
    (inference bs ngpu g loader u).removed = [] := by
  unfold inference
  by_cases hbs : bs > 1
  · rw [if_pos hbs]
    exact ⟨rfl, rfl, rfl, rfl, rfl, rfl⟩
  · have hng : ngpu > 1 := h.resolve_left hbs
    rw [if_neg hbs, if_pos hng]
    exact ⟨rfl, rfl, rfl, rfl, rfl, rfl⟩

/-- C7, witness: `batch_size = 2` aborts with zero work done. -/
theorem C7_witness :
    ((2 > 1 ∨ 0 > 1)) ∧
    ((inference 2 0 gRun loaderTwo false).error.isSome = true ∧
     (inference 2 0 gRun loaderTwo false).dirsCreated = [] ∧
     (inference 2 0 gRun loaderTwo false).modelBuilt = false ∧
     (inference 2 0 gRun loaderTwo false).loaderBuilt = false ∧
     (inference 2 0 gRun loaderTwo false).counts = {} ∧
     (inference 2 0 gRun loaderTwo false).removed = []) :=
  ⟨Or.inl (by decide), C7_fail_fast 2 0 gRun loaderTwo false (Or.inl (by decide))⟩

/-- C8, counterexample.  The claim's round-trip law states that applying
the "sequence" reshape and then the "frame" reshape yields the original
tensor back in time-major [T, L] form.  At the flat tensor 0,1,2,3 with
two layers the composite yields the sequence-reshaped matrix 0,2,1,3 —
not the original row-major [T, L] arrangement 0,1,2,3. -/
theorem C8_counterexample :
    (seqReshape 2 tFlat4).bind (frameReshape 2) = .ok ⟨[2, 2], [0, 2, 1, 3]⟩ ∧
    frameReshape 2 tFlat4 = .ok ⟨[2, 2], [0, 1, 2, 3]⟩ ∧
    ¬ ((seqReshape 2 tFlat4).bind (frameReshape 2) = frameReshape 2 tFlat4) := by
  refine ⟨rfl, rfl, fun h => ?_⟩
  rw [show (seqReshape 2 tFlat4).bind (frameReshape 2) = .ok ⟨[2, 2], [0, 2, 1, 3]⟩ from rfl,
      show frameReshape 2 tFlat4 = .ok ⟨[2, 2], [0, 1, 2, 3]⟩ from rfl] at h
  exact absurd (Except.ok.inj h) (by decide)

/-- C8, amended.  For a flat tensor of length `T * L` with `L > 1`: the
"frame" reshape produces the `[T, L]` view of the unchanged data; the
"sequence" reshape produces the `[T, L]` transpose of the `[L, T]` view;
and the round trip "sequence" followed by "frame" returns the
sequence-reshaped tensor unchanged (the frame reshape is the identity on
an `[T, L]`-shaped tensor), not the original row-major arrangement. -/
theorem C8_reshape_laws (T L : Nat) (t : Tensor) (hL : 1 < L)
    (hlen : t.data.length = T * L) :
    frameReshape L t = .ok ⟨[T, L], t.data⟩ ∧
    seqReshape L t = .ok ⟨[T, L], transposeData L T t.data⟩ ∧
    (seqReshape L t).bind (frameReshape L) = seqReshape L t := by
  have hL0 : L ≠ 0 := by omega
  have hmod : t.data.length % L = 0 := by
    rw [hlen]; exact Nat.mul_mod_left T L
  have hdivi : t.data.length / L = T := by
    rw [hlen]; exact Nat.mul_div_cancel T (by omega)
  have hframe : frameReshape L t = .ok ⟨[T, L], t.data⟩ := by
    unfold frameReshape torchViewCols
    rw [if_pos ⟨hL0, hmod⟩, hdivi]
  have hseq : seqReshape L t = .ok ⟨[T, L], transposeData L T t.data⟩ := by
    unfold seqReshape torchViewRows
    rw [if_pos ⟨hL0, hmod⟩, hdivi]
    rfl
  refine ⟨hframe, hseq, ?_⟩
  rw [hseq]
  show frameReshape L ⟨[T, L], transposeData L T t.data⟩ = _
  unfold frameReshape torchViewCols
  have hlen2 : (Tensor.data ⟨[T, L], transposeData L T t.data⟩).length = T * L := by
    simpa using transposeData_length L T t.data
  rw [hlen2, if_pos ⟨hL0, Nat.mul_mod_left T L⟩, Nat.mul_div_cancel T (by omega)]

/-- C8, witness: the spec's scenario with two layers and a flat feature
of length 100, whose frame reshape has shape (50, 2). -/
theorem C8_witness :
    (1 < 2 ∧ t100.data.length = 50 * 2) ∧
    (frameReshape 2 t100 = .ok ⟨[50, 2], t100.data⟩ ∧
     seqReshape 2 t100 = .ok ⟨[50, 2], transposeData 2 50 t100.data⟩ ∧
     (seqReshape 2 t100).bind (frameReshape 2) = seqReshape 2 t100) :=
  ⟨⟨by decide, by decide⟩, C8_reshape_laws 50 2 t100 (by decide) (by decide)⟩

/-- C9.  For every call that reaches the model with a non-None override,
the configuration passed to the acoustic model is the stored
configuration with the override merged on top — the override wins
key-by-key and base keys not overridden are retained — and the
orchestrator (in particular its stored configuration) is unchanged by
the call: the merge happens on a fresh per-call copy. -/
theorem C9_override_merge (g : SingingGenerate) (inp : CallInputs)
    (ov : List (String × ConfVal))
    (hov : inp.decode_conf = some ov)
    (hpre : (g.call inp).modelInvoked = true) :
    (g.call inp).modelCfg = some (dictUpdate g.decode_conf ov) ∧
    (∀ k : String,
      (dictUpdate g.decode_conf ov).lookup k =
        ((ov.lookup k).or (g.decode_conf.lookup k))) ∧
    (g.call inp).orchAfter = g := by
  have hc : g.mergedCfg inp = dictUpdate g.decode_conf ov := by
    unfold SingingGenerate.mergedCfg
    rw [hov]
  refine ⟨?_, fun k => lookup_dictUpdate g.decode_conf ov k, ?_⟩
  · rw [call_eq_main g inp hpre, postProcess_modelCfg, hc]
  · rw [call_eq_main g inp hpre, postProcess_orchAfter]

/-- C9, witness: a concrete override on top of the baseline stored
configuration. -/
theorem C9_witness :
    (inpOv.decode_conf = some ovW ∧ (gRun.call inpOv).modelInvoked = true) ∧
    ((gRun.call inpOv).modelCfg = some (dictUpdate gRun.decode_conf ovW) ∧
     (∀ k : String,
       (dictUpdate gRun.decode_conf ovW).lookup k =
         ((ovW.lookup k).or (gRun.decode_conf.lookup k))) ∧
     (gRun.call inpOv).orchAfter = gRun) :=
  ⟨⟨rfl, rfl⟩, C9_override_merge gRun inpOv ovW rfl rfl⟩

/-- C10.  With more than one discrete-token layer and a `mix_type` that
is neither "frame" nor "sequence" (and the singomd decomposition off),
the synthesis call raises no error: the reshaping step is silently
skipped and the flat, unreshaped feature tensor is passed to the vocoder
as-is — `mix_type` is never validated against its two-value domain. -/
theorem C10_unvalidated_mix_type (g : SingingGenerate) (inp : CallInputs)
    (out0 : ModelOutput) (voc : VocoderInput → Option Tensor → Tensor) (f : Tensor)
    (hm : g.model_inference (g.prepBatch inp) (g.mergedCfg inp) = out0)
    (hpre : (g.call inp).modelInvoked = true)
    (hL : g.discrete_token_layers > 1)
    (hmix1 : g.mix_type ≠ "frame")
    (hmix2 : g.mix_type ≠ "sequence")
    (hsing : inp.use_singomd = false)
    (hatt : out0.att_w = none)
    (hvoc : g.vocoder = some voc)
    (hsel : selectInputFeat g.prefer_normalized_feats
        { out0 with duration := none, focus_rate := none } = .ok f)
    (hpitch : out0.pitch = none) :
    (g.call inp).result =
      .ok { out0 with
            duration := none, focus_rate := none
            wav := some (voc (VocoderInput.tens f) none) } ∧
    (g.call inp).vocoderCalls = [(VocoderInput.tens f, none)] := by
  have hre : reshapeFeat g.discrete_token_layers g.mix_type inp.use_singomd f =
      .ok (VocoderInput.tens f) := by
    unfold reshapeFeat
    rw [if_pos hL, hsing]
    simp [hmix1, hmix2]
  have hfeat : g.vocoderInputFeat inp { out0 with duration := none, focus_rate := none } =
      .ok (VocoderInput.tens f) := by
    unfold SingingGenerate.vocoderInputFeat
    rw [hsel]
    dsimp only
    rw [hre]
  rw [hatt] at hfeat
  rw [call_eq_main g inp hpre, hm]
  unfold SingingGenerate.postProcess
  rw [hatt, hvoc]
  dsimp only
  rw [hfeat, hpitch]
  exact ⟨rfl, rfl⟩

/-- C10, witness: two layers, `mix_type = "mixed"`, a configured vocoder,
and a flat feature — the call succeeds and the vocoder receives the flat
tensor unchanged. -/
theorem C10_witness :
    (gMix.model_inference (gMix.prepBatch inpT) (gMix.mergedCfg inpT) = outPlain ∧
     (gMix.call inpT).modelInvoked = true ∧
     gMix.discrete_token_layers > 1 ∧
     gMix.mix_type ≠ "frame" ∧
     gMix.mix_type ≠ "sequence" ∧
     inpT.use_singomd = false ∧
     outPlain.att_w = none ∧
     gMix.vocoder = some vocStub ∧
     selectInputFeat gMix.prefer_normalized_feats
       { outPlain with duration := none, focus_rate := none } = .ok tFeat4 ∧
     outPlain.pitch = none) ∧
    ((gMix.call inpT).result =
       .ok { outPlain with
             duration := none, focus_rate := none
             wav := some (vocStub (VocoderInput.tens tFeat4) none) } ∧
     (gMix.call inpT).vocoderCalls = [(VocoderInput.tens tFeat4, none)]) :=
  ⟨⟨rfl, rfl, by decide, by decide, by decide, rfl, rfl, rfl, rfl, rfl⟩,
   C10_unvalidated_mix_type gMix inpT outPlain vocStub tFeat4 rfl rfl (by decide)
     (by decide) (by decide) rfl rfl rfl rfl rfl⟩
